import Mathlib

/-!
Shallow embedding of `src/alert_watcher/watcher.py` (class `LogWatcher`).

Modelling conventions:
* A parsed log line (the `groupdict()` of `log_pattern`) is a `LogRecord` of strings.
* Wall-clock times (`time.time()`) are rationals; the several `time.time()` calls
  made while processing one line are modelled as a single `now` per line.
* The Slack client is modelled by a flag `has_webhook` (whether `slack_client` is
  set) together with an oracle `notifier : Nat -> Bool` giving the outcome of the
  n-th actual `send` call (`true` = HTTP 200, `false` = non-200 status or a raised
  exception; the code treats both identically: it only prints and does not update
  `last_alert_time`).  `send_count` counts the `send` calls made so far.
* Message text, severity and colour only affect the printed/posted text, never
  control flow or engine state; they are omitted.  Each `send_slack_alert` call is
  instead recorded as a trace event `(alert_type, outcome)`.
* `os.getenv('INITIAL_ACTIVE_POOL', 'blue')`, read again inside `detect_failover`,
  is the construction-time constant `initial_pool`.
* The regex parser itself is not needed by the claims (they quantify over parsed
  records); `process_record` is the body of `process_log_line` after a successful
  parse.  Note the regex guarantees `upstream_status` matches `\d+|-`, hence is a
  non-empty string on every parsed record.
* Python `s.startswith('5')` with its one-character pattern is embedded as "the
  first character of `s` is the digit 5" (`startswith5`), which is extensionally
  the same test.
-/

/-- One parsed log record: the captured groups of `LogWatcher.log_pattern`, all strings. -/
structure LogRecord where
  timestamp : String
  remote_addr : String
  request : String
  status : String
  pool : String
  release : String
  upstream_status : String
  upstream_addr : String
  request_time : String
  upstream_response_time : String
deriving DecidableEq

/-- The three alert-category keys the code ever passes as `alert_type`. -/
inductive AlertType where
  | failover
  | recovery
  | error_rate
deriving DecidableEq

/-- Outcome of one `send_slack_alert` call: suppressed by maintenance mode, printed
because no webhook is configured, suppressed by the cooldown, dispatched with
HTTP 200, or dispatched but failed (non-200 or exception). -/
inductive SendResult where
  | suppressedMaintenance
  | noWebhook
  | suppressedCooldown
  | sent
  | sendFailed
deriving DecidableEq

/-- One recorded `send_slack_alert` call: the category and its outcome. -/
abbrev TraceEvent := AlertType × SendResult

/-- The mutable state of a `LogWatcher` instance (configuration fields included,
since they are attributes of the same object). -/
structure WatcherState where
  error_threshold : ℚ
  window_size : ℕ
  cooldown_sec : ℚ
  maintenance_mode : Bool
  has_webhook : Bool
  initial_pool : String
  request_window : List LogRecord
  last_alert_time : List (AlertType × ℚ)
  current_pool : String
  last_seen_pool : String
  failover_count : ℕ
  primary_recovered : Bool
  send_count : ℕ
deriving DecidableEq

/-- Lookup `self.last_alert_time.get(alert_type, 0)`: the dict is an association list where
an update prepends, so lookup takes the most recent binding and defaults to `0`. -/
def getAlertTime (m : List (AlertType × ℚ)) (t : AlertType) : ℚ :=
  ((m.find? (fun p => p.1 == t)).map Prod.snd).getD 0

/-- Update `self.last_alert_time[alert_type] = v`. -/
def setAlertTime (m : List (AlertType × ℚ)) (t : AlertType) (v : ℚ) :
    List (AlertType × ℚ) :=
  (t, v) :: m

/-- Embeds `deque(maxlen=n).append(r)`: append and keep only the `n` most recent elements
(the oldest, index 0, is evicted first when capacity is exceeded). -/
def dequeAppend (n : ℕ) (w : List LogRecord) (r : LogRecord) : List LogRecord :=
  (w ++ [r]).drop ((w ++ [r]).length - n)

/-- Embeds `s.startswith('5')`: the string begins with the digit 5. -/
def startswith5 (s : String) : Bool :=
  match s.data with
  | [] => false
  | c :: _ => c == '5'

/-- Number of records of `w` whose `upstream_status` starts with the digit 5
(`req.get('upstream_status', '').startswith('5')`; every parsed record carries the
key, so the `.get` default never fires). -/
def count5xx (w : List LogRecord) : ℕ :=
  w.countP (fun r => startswith5 r.upstream_status)

/-- Body of `LogWatcher.calculate_error_rate` as a function of the window contents:
`0.0` for an empty window, otherwise the 5xx count over the window length, times 100. -/
def windowErrorRate (w : List LogRecord) : ℚ :=
  if w.isEmpty then 0
  else ((count5xx w : ℚ) / (w.length : ℚ)) * 100

/-- Embeds `LogWatcher.calculate_error_rate` (reads `self.request_window`). -/
def calculate_error_rate (s : WatcherState) : ℚ :=
  windowErrorRate s.request_window

/-- Embeds `LogWatcher.should_alert`: true iff `now - last_alert_time.get(alert_type, 0)`
has reached the cooldown. -/
def should_alert (s : WatcherState) (t : AlertType) (now : ℚ) : Bool :=
  decide (now - getAlertTime s.last_alert_time t ≥ s.cooldown_sec)

/-- Embeds `LogWatcher.send_slack_alert`: maintenance mode suppresses; a missing webhook
client prints instead of sending; the cooldown suppresses; otherwise the client
sends, and only an HTTP-200 response updates `last_alert_time[alert_type]`. -/
def send_slack_alert (s : WatcherState) (t : AlertType) (now : ℚ)
    (notifier : ℕ → Bool) : WatcherState × TraceEvent :=
  if s.maintenance_mode then (s, (t, SendResult.suppressedMaintenance))
  else if !s.has_webhook then (s, (t, SendResult.noWebhook))
  else if !(should_alert s t now) then (s, (t, SendResult.suppressedCooldown))
  else if notifier s.send_count then
    ({ s with last_alert_time := setAlertTime s.last_alert_time t now,
              send_count := s.send_count + 1 }, (t, SendResult.sent))
  else
    ({ s with send_count := s.send_count + 1 }, (t, SendResult.sendFailed))

/-- Embeds `LogWatcher.detect_failover`: on a non-empty pool differing from
`last_seen_pool`, bump `failover_count`, send a `recovery` alert if the pool is the
initial pool and a `failover` alert otherwise, set `primary_recovered`
accordingly, and finally set `last_seen_pool` to the new pool (unconditionally). -/
def detect_failover (s : WatcherState) (pool : String) (now : ℚ)
    (notifier : ℕ → Bool) : WatcherState × List TraceEvent :=
  if pool ≠ "" ∧ pool ≠ s.last_seen_pool then
    let s1 : WatcherState := { s with failover_count := s.failover_count + 1 }
    if pool = s.initial_pool then
      let res := send_slack_alert s1 AlertType.recovery now notifier
      ({ res.1 with primary_recovered := true, last_seen_pool := pool }, [res.2])
    else
      let res := send_slack_alert s1 AlertType.failover now notifier
      ({ res.1 with primary_recovered := false, last_seen_pool := pool }, [res.2])
  else (s, [])

/-- Embeds `LogWatcher.monitor_error_rate`: if the record carries a (truthy)
`upstream_status`, append it to the window; then, whenever the recomputed error
rate exceeds the threshold, attempt an `error_rate` alert. -/
def monitor_error_rate (s : WatcherState) (r : LogRecord) (now : ℚ)
    (notifier : ℕ → Bool) : WatcherState × List TraceEvent :=
  if r.upstream_status ≠ "" then
    let s1 : WatcherState :=
      { s with request_window := dequeAppend s.window_size s.request_window r }
    if calculate_error_rate s1 > s1.error_threshold then
      let res := send_slack_alert s1 AlertType.error_rate now notifier
      (res.1, [res.2])
    else (s1, [])
  else (s, [])

/-- Embeds `list(self.request_window)[-10:]`: the last `k` records (all of them when the
window holds fewer than `k`). -/
def lastK (k : ℕ) (w : List LogRecord) : List LogRecord :=
  w.drop (w.length - k)

/-- Embeds `LogWatcher.monitor_service_health`: on a record with a truthy, non-5xx
`upstream_status`, when the window holds at least 10 records, none of the last 10
is a 5xx, an `error_rate` alert time is recorded (> 0) and less than 600 seconds
have passed since it, attempt a `recovery` alert. -/
def monitor_service_health (s : WatcherState) (r : LogRecord) (now : ℚ)
    (notifier : ℕ → Bool) : WatcherState × List TraceEvent :=
  if r.upstream_status ≠ "" ∧ startswith5 r.upstream_status = false then
    if 10 ≤ s.request_window.length then
      if count5xx (lastK 10 s.request_window) = 0 ∧
          0 < getAlertTime s.last_alert_time AlertType.error_rate then
        if now - getAlertTime s.last_alert_time AlertType.error_rate < 600 then
          let res := send_slack_alert s AlertType.recovery now notifier
          (res.1, [res.2])
        else (s, [])
      else (s, [])
    else (s, [])
  else (s, [])

/-- Embeds `LogWatcher.process_log_line` after a successful parse: run `detect_failover`,
then `monitor_error_rate`, then `monitor_service_health`, and finally update
`current_pool` when the pool field is non-empty. -/
def process_record (s : WatcherState) (r : LogRecord) (now : ℚ)
    (notifier : ℕ → Bool) : WatcherState × List TraceEvent :=
  let pool := r.pool
  let p1 := detect_failover s pool now notifier
  let p2 := monitor_error_rate p1.1 r now notifier
  let p3 := monitor_service_health p2.1 r now notifier
  let s4 := if pool ≠ "" then { p3.1 with current_pool := pool } else p3.1
  (s4, p1.2 ++ p2.2 ++ p3.2)

/-- Process a timed sequence of parsed records in order, concatenating traces. -/
def processAll (s : WatcherState) (inputs : List (LogRecord × ℚ))
    (notifier : ℕ → Bool) : WatcherState × List TraceEvent :=
  inputs.foldl (fun acc inp =>
    let p := process_record acc.1 inp.1 inp.2 notifier
    (p.1, acc.2 ++ p.2)) (s, [])

/-- Embeds `LogWatcher.__init__` with the given configuration values (environment
variables already read): empty window, empty `last_alert_time` dict,
`current_pool = last_seen_pool = initial_pool`, counters zeroed. -/
def initState (threshold : ℚ) (wsize : ℕ) (cooldown : ℚ) (maint : Bool)
    (pool0 : String) (webhook : Bool) : WatcherState :=
  { error_threshold := threshold
    window_size := wsize
    cooldown_sec := cooldown
    maintenance_mode := maint
    has_webhook := webhook
    initial_pool := pool0
    request_window := []
    last_alert_time := []
    current_pool := pool0
    last_seen_pool := pool0
    failover_count := 0
    primary_recovered := false
    send_count := 0 }

/-- Number of successfully dispatched (`sent`) alerts of category `t` in a trace. -/
def countSent (t : AlertType) (tr : List TraceEvent) : ℕ :=
  tr.countP (fun e => e.1 == t && e.2 == SendResult.sent)

/-- A record whose upstream answered 503 (a 5xx), with an empty pool field. -/
def rec5xx : LogRecord :=
  { timestamp := "01/Jan/2024:00:00:00"
    remote_addr := "10.0.0.1"
    request := "GET / HTTP/1.1"
    status := "502"
    pool := ""
    release := "r1"
    upstream_status := "503"
    upstream_addr := "10.0.1.1:8080"
    request_time := "0.10"
    upstream_response_time := "0.08" }

/-- A record whose upstream answered 200, carrying the given pool field. -/
def recOK (p : String) : LogRecord :=
  { timestamp := "01/Jan/2024:00:00:00"
    remote_addr := "10.0.0.1"
    request := "GET / HTTP/1.1"
    status := "200"
    pool := p
    release := "r1"
    upstream_status := "200"
    upstream_addr := "10.0.1.1:8080"
    request_time := "0.10"
    upstream_response_time := "0.08" }

/-- A record with a 500 upstream status, carrying the given pool field. -/
def rec5xxPool (p : String) : LogRecord :=
  { rec5xx with pool := p, upstream_status := "500" }

/-- The error-rate formula in the specification's words, spelled independently of
`calculate_error_rate`: the count of records whose `upstream_status` is present
(non-empty — every parsed record carries the key, so emptiness is the only notion
of absence) and starts with digit 5, over the window size, times 100, and exactly
`0.0` for the empty window. -/
def errorRateSpec (w : List LogRecord) : ℚ :=
  if w.length = 0 then 0
  else ((w.countP (fun r => decide (r.upstream_status ≠ "") &&
          startswith5 r.upstream_status) : ℚ) / (w.length : ℚ)) * 100

/-- A fresh engine with the configuration of the claims: threshold 2.0 percent,
window 200, cooldown 300 s, maintenance off, initial pool blue, webhook set. -/
def sInit : WatcherState := initState 2 200 300 false "blue" true

/-- The same engine but started in maintenance mode. -/
def mInit : WatcherState := initState 2 200 300 true "blue" true

/-- A notifier whose sends always succeed (HTTP 200). -/
def okNotif : ℕ → Bool := fun _ => true

/-- A notifier whose sends always fail. -/
def badNotif : ℕ → Bool := fun _ => false

/-- The engine state after `sInit` has processed one `rec5xx` at time 1000:
the record is in the window, the `error_rate` alert was dispatched at 1000. -/
def sA1 : WatcherState :=
  { sInit with request_window := [rec5xx]
               last_alert_time := [(AlertType.error_rate, 1000)]
               send_count := 1 }

/-- An engine with a ten-record healthy window and an `error_rate` alert
dispatched at time 500, for exercising `monitor_service_health`. -/
def sHealth : WatcherState :=
  { sInit with request_window := List.replicate 10 (recOK "")
               last_alert_time := [(AlertType.error_rate, 500)] }

/-- An engine whose `error_rate` alert was dispatched at time 1000, for
exercising the cooldown gate. -/
def sCool : WatcherState :=
  { sInit with last_alert_time := [(AlertType.error_rate, 1000)] }

/-! ### Basic lemmas about the embedded primitives -/

theorem getAlertTime_nil (t : AlertType) : getAlertTime [] t = 0 := rfl

theorem getAlertTime_cons (u : AlertType) (v : ℚ) (m : List (AlertType × ℚ))
    (t : AlertType) :
    getAlertTime ((u, v) :: m) t = if u = t then v else getAlertTime m t := by
  by_cases h : u = t
  · simp [getAlertTime, List.find?, h]
  · have hb : (u == t) = false := by
      cases u <;> cases t <;> simp_all
    simp [getAlertTime, List.find?, hb, h]

theorem countSent_append (t : AlertType) (l1 l2 : List TraceEvent) :
    countSent t (l1 ++ l2) = countSent t l1 + countSent t l2 := by
  simp [countSent, List.countP_append]

theorem countSent_nil (t : AlertType) : countSent t [] = 0 := rfl

theorem processAll_nil (s : WatcherState) (f : ℕ → Bool) :
    processAll s [] f = (s, []) := rfl

theorem processAll_foldl_acc (f : ℕ → Bool) (inputs : List (LogRecord × ℚ))
    (s : WatcherState) (tr : List TraceEvent) :
    inputs.foldl (fun acc inp =>
        let p := process_record acc.1 inp.1 inp.2 f
        (p.1, acc.2 ++ p.2)) (s, tr)
      = ((processAll s inputs f).1, tr ++ (processAll s inputs f).2) := by
  induction inputs generalizing s tr with
  | nil => simp [processAll]
  | cons x xs ih =>
      simp only [processAll, List.foldl_cons, List.nil_append]
      rw [ih, ih]
      simp [List.append_assoc]

theorem processAll_cons (s : WatcherState) (x : LogRecord × ℚ)
    (xs : List (LogRecord × ℚ)) (f : ℕ → Bool) :
    processAll s (x :: xs) f
      = ((processAll (process_record s x.1 x.2 f).1 xs f).1,
         (process_record s x.1 x.2 f).2
           ++ (processAll (process_record s x.1 x.2 f).1 xs f).2) := by
  simp only [processAll, List.foldl_cons]
  rw [processAll_foldl_acc]
  simp [processAll]

/-! ### Structural lemmas about `send_slack_alert` -/

theorem send_event_type (s : WatcherState) (t : AlertType) (now : ℚ)
    (f : ℕ → Bool) : (send_slack_alert s t now f).2.1 = t := by
  unfold send_slack_alert
  split_ifs <;> rfl

theorem send_pres (s : WatcherState) (t : AlertType) (now : ℚ) (f : ℕ → Bool) :
    ((send_slack_alert s t now f).1).error_threshold = s.error_threshold
    ∧ ((send_slack_alert s t now f).1).window_size = s.window_size
    ∧ ((send_slack_alert s t now f).1).cooldown_sec = s.cooldown_sec
    ∧ ((send_slack_alert s t now f).1).maintenance_mode = s.maintenance_mode
    ∧ ((send_slack_alert s t now f).1).has_webhook = s.has_webhook
    ∧ ((send_slack_alert s t now f).1).initial_pool = s.initial_pool
    ∧ ((send_slack_alert s t now f).1).request_window = s.request_window
    ∧ ((send_slack_alert s t now f).1).current_pool = s.current_pool
    ∧ ((send_slack_alert s t now f).1).last_seen_pool = s.last_seen_pool
    ∧ ((send_slack_alert s t now f).1).failover_count = s.failover_count
    ∧ ((send_slack_alert s t now f).1).primary_recovered = s.primary_recovered := by
  unfold send_slack_alert
  split_ifs <;> simp

theorem send_getAlertTime_other (s : WatcherState) (t t' : AlertType) (now : ℚ)
    (f : ℕ → Bool) (h : t' ≠ t) :
    getAlertTime ((send_slack_alert s t now f).1).last_alert_time t'
      = getAlertTime s.last_alert_time t' := by
  have h2 : t ≠ t' := fun hc => h hc.symm
  unfold send_slack_alert
  split_ifs <;> simp [setAlertTime, getAlertTime_cons, h2]

theorem send_not_sent_of_cooldown (s : WatcherState) (t : AlertType) (now : ℚ)
    (f : ℕ → Bool) (h : should_alert s t now = false) :
    (send_slack_alert s t now f).2.2 ≠ SendResult.sent := by
  unfold send_slack_alert
  split_ifs with h1 h2 h3 <;> simp_all

theorem send_state_unchanged_of_not_dispatched (s : WatcherState) (t : AlertType)
    (now : ℚ) (f : ℕ → Bool)
    (h : (send_slack_alert s t now f).2.2 ≠ SendResult.sent
         ∧ (send_slack_alert s t now f).2.2 ≠ SendResult.sendFailed) :
    (send_slack_alert s t now f).1 = s := by
  unfold send_slack_alert at *
  split_ifs at * <;> simp_all

theorem send_last_alert_time_of_not_sent (s : WatcherState) (t : AlertType)
    (now : ℚ) (f : ℕ → Bool) (h : (send_slack_alert s t now f).2.2 ≠ SendResult.sent) :
    ((send_slack_alert s t now f).1).last_alert_time = s.last_alert_time := by
  unfold send_slack_alert at *
  split_ifs at * <;> simp_all

/-! ### Trace-counting lemmas -/

theorem countSent_singleton (t : AlertType) (ev : TraceEvent) :
    countSent t [ev] = if ev.1 = t ∧ ev.2 = SendResult.sent then 1 else 0 := by
  by_cases h1 : ev.1 = t <;> by_cases h2 : ev.2 = SendResult.sent <;>
    simp [countSent, h1, h2]

theorem countSent_eq_zero_of_types (t : AlertType) (tr : List TraceEvent)
    (h : ∀ ev ∈ tr, ev.1 ≠ t) : countSent t tr = 0 := by
  induction tr with
  | nil => rfl
  | cons e es ih =>
      have he : e.1 ≠ t := h e (by simp)
      have hes : ∀ ev ∈ es, ev.1 ≠ t := fun ev hm => h ev (by simp [hm])
      simp [countSent, List.countP_cons, he]
      simpa [countSent] using ih hes

/-! ### Structural lemmas about `detect_failover` and the monitors -/

theorem detect_trace_types (s : WatcherState) (pool : String) (now : ℚ)
    (f : ℕ → Bool) :
    ∀ ev ∈ (detect_failover s pool now f).2,
      ev.1 = AlertType.failover ∨ ev.1 = AlertType.recovery := by
  unfold detect_failover
  split_ifs <;> simp [send_event_type]

theorem detect_pres (s : WatcherState) (pool : String) (now : ℚ) (f : ℕ → Bool) :
    ((detect_failover s pool now f).1).cooldown_sec = s.cooldown_sec
    ∧ ((detect_failover s pool now f).1).maintenance_mode = s.maintenance_mode
    ∧ ((detect_failover s pool now f).1).has_webhook = s.has_webhook
    ∧ ((detect_failover s pool now f).1).window_size = s.window_size
    ∧ ((detect_failover s pool now f).1).error_threshold = s.error_threshold
    ∧ ((detect_failover s pool now f).1).request_window = s.request_window
    ∧ getAlertTime ((detect_failover s pool now f).1).last_alert_time
        AlertType.error_rate = getAlertTime s.last_alert_time AlertType.error_rate := by
  unfold detect_failover
  split_ifs <;>
    simp [send_pres, send_getAlertTime_other]

theorem mer_cooldown (s : WatcherState) (r : LogRecord) (now : ℚ) (f : ℕ → Bool)
    (h : now - getAlertTime s.last_alert_time AlertType.error_rate < s.cooldown_sec) :
    countSent AlertType.error_rate (monitor_error_rate s r now f).2 = 0
    ∧ ((monitor_error_rate s r now f).1).last_alert_time = s.last_alert_time
    ∧ ((monitor_error_rate s r now f).1).cooldown_sec = s.cooldown_sec := by
  have hna : should_alert
      { s with request_window := dequeAppend s.window_size s.request_window r }
      AlertType.error_rate now = false := by
    simp only [should_alert, decide_eq_false_iff_not]
    exact fun hc => absurd h (not_lt.mpr hc)
  simp only [monitor_error_rate]
  split_ifs with h1 h2
  · have hns := send_not_sent_of_cooldown
      { s with request_window := dequeAppend s.window_size s.request_window r }
      AlertType.error_rate now f hna
    have hla := send_last_alert_time_of_not_sent
      { s with request_window := dequeAppend s.window_size s.request_window r }
      AlertType.error_rate now f hns
    refine ⟨?_, ?_, ?_⟩
    · rw [countSent_singleton]
      simp [send_event_type, hns]
    · simpa using hla
    · simpa using (send_pres
        { s with request_window := dequeAppend s.window_size s.request_window r }
        AlertType.error_rate now f).2.2.1
  · exact ⟨rfl, rfl, rfl⟩
  · exact ⟨rfl, rfl, rfl⟩

theorem msh_no_error_rate (s : WatcherState) (r : LogRecord) (now : ℚ)
    (f : ℕ → Bool) :
    countSent AlertType.error_rate (monitor_service_health s r now f).2 = 0
    ∧ getAlertTime ((monitor_service_health s r now f).1).last_alert_time
        AlertType.error_rate = getAlertTime s.last_alert_time AlertType.error_rate
    ∧ ((monitor_service_health s r now f).1).cooldown_sec = s.cooldown_sec := by
  simp only [monitor_service_health]
  split_ifs <;>
    simp [countSent_singleton, countSent_nil, send_event_type, send_pres,
      send_getAlertTime_other]

theorem process_record_cooldown (s : WatcherState) (r : LogRecord) (now : ℚ)
    (f : ℕ → Bool)
    (h : now - getAlertTime s.last_alert_time AlertType.error_rate < s.cooldown_sec) :
    countSent AlertType.error_rate (process_record s r now f).2 = 0
    ∧ ((process_record s r now f).1).cooldown_sec = s.cooldown_sec
    ∧ getAlertTime ((process_record s r now f).1).last_alert_time AlertType.error_rate
        = getAlertTime s.last_alert_time AlertType.error_rate := by
  obtain ⟨dc, -, -, -, -, -, dg⟩ := detect_pres s r.pool now f
  have h1 : now - getAlertTime ((detect_failover s r.pool now f).1).last_alert_time
      AlertType.error_rate < ((detect_failover s r.pool now f).1).cooldown_sec := by
    rw [dg, dc]; exact h
  obtain ⟨m0, m1, m2⟩ := mer_cooldown (detect_failover s r.pool now f).1 r now f h1
  obtain ⟨s0, s1g, s2c⟩ := msh_no_error_rate
    (monitor_error_rate (detect_failover s r.pool now f).1 r now f).1 r now f
  have z1 : countSent AlertType.error_rate (detect_failover s r.pool now f).2 = 0 := by
    refine countSent_eq_zero_of_types _ _ (fun ev hm => ?_)
    rcases detect_trace_types s r.pool now f ev hm with h' | h' <;> simp [h']
  have hm1 : getAlertTime
      ((monitor_error_rate (detect_failover s r.pool now f).1 r now f).1).last_alert_time
      AlertType.error_rate = getAlertTime s.last_alert_time AlertType.error_rate := by
    rw [m1, dg]
  have hc1 : ((monitor_error_rate (detect_failover s r.pool now f).1 r now f).1).cooldown_sec
      = s.cooldown_sec := by rw [m2, dc]
  simp only [process_record]
  refine ⟨?_, ?_, ?_⟩
  · simp [countSent_append, z1, m0, s0]
  · by_cases hp : r.pool ≠ "" <;> simp [hp, s2c, hc1]
  · by_cases hp : r.pool ≠ "" <;> simp [hp, s1g, hm1]

theorem processAll_cons_pair (s : WatcherState) (r : LogRecord) (q : ℚ)
    (xs : List (LogRecord × ℚ)) (f : ℕ → Bool) :
    processAll s ((r, q) :: xs) f
      = ((processAll (process_record s r q f).1 xs f).1,
         (process_record s r q f).2
           ++ (processAll (process_record s r q f).1 xs f).2) :=
  processAll_cons s (r, q) xs f

theorem processAll_replicate_cooldown (k : ℕ) (f : ℕ → Bool) :
    ∀ s : WatcherState, s.cooldown_sec = 300 →
      getAlertTime s.last_alert_time AlertType.error_rate = 1000 →
      countSent AlertType.error_rate
        (processAll s (List.replicate k (rec5xx, (1000 : ℚ))) f).2 = 0 := by
  induction k with
  | zero => intro s _ _; simp [processAll_nil, countSent_nil]
  | succ n ih =>
      intro s h1 h2
      have hlt : (1000 : ℚ) - getAlertTime s.last_alert_time AlertType.error_rate
          < s.cooldown_sec := by rw [h1, h2]; norm_num
      obtain ⟨c0, c1, c2⟩ := process_record_cooldown s rec5xx 1000 f hlt
      have ih' := ih (process_record s rec5xx 1000 f).1 (by rw [c1, h1])
        (by rw [c2, h2])
      rw [List.replicate_succ, processAll_cons_pair, countSent_append, c0, ih']

/-! ### Literal evaluation facts for the concrete scenarios -/

theorem sw5_503 : startswith5 "503" = true := by decide

theorem sw5_500 : startswith5 "500" = true := by decide

theorem sw5_200 : startswith5 "200" = false := by decide

theorem ne_503_nil : ("503" : String) ≠ "" := by decide

theorem ne_500_nil : ("500" : String) ≠ "" := by decide

theorem ne_200_nil : ("200" : String) ≠ "" := by decide

theorem ne_green_nil : ("green" : String) ≠ "" := by decide

theorem ne_blue_nil : ("blue" : String) ≠ "" := by decide

theorem ne_green_blue : ("green" : String) ≠ "blue" := by decide

theorem ne_blue_green : ("blue" : String) ≠ "green" := by decide

theorem ne_fo_er : AlertType.failover ≠ AlertType.error_rate := by decide

theorem ne_er_fo : AlertType.error_rate ≠ AlertType.failover := by decide

theorem ne_fo_re : AlertType.failover ≠ AlertType.recovery := by decide

theorem ne_re_fo : AlertType.recovery ≠ AlertType.failover := by decide

theorem ne_re_er : AlertType.recovery ≠ AlertType.error_rate := by decide

theorem ne_er_re : AlertType.error_rate ≠ AlertType.recovery := by decide

theorem step1_eval : process_record sInit rec5xx 1000 okNotif
    = (sA1, [(AlertType.error_rate, SendResult.sent)]) := by
  simp only [process_record, detect_failover, monitor_error_rate,
    monitor_service_health, send_slack_alert, should_alert, calculate_error_rate,
    windowErrorRate, count5xx, dequeAppend, lastK, getAlertTime, setAlertTime,
    sInit, sA1, initState, okNotif, rec5xx, List.countP_cons, List.countP_nil,
    sw5_503, ne_503_nil, List.find?]
  norm_num [List.countP_cons, List.countP_nil, sw5_503, ne_503_nil]

theorem sA1_cooldown : sA1.cooldown_sec = 300 := rfl

theorem sA1_gat : getAlertTime sA1.last_alert_time AlertType.error_rate = 1000 := by
  simp [sA1, sInit, initState, getAlertTime_cons]

/-! ### Claim C1 -/

/-- Claim C1, counterexample: the claim asserts that feeding 49 all-5xx parsed
records to a fresh engine (window 200, threshold 2.0, cooldown 300 s) fires no
`error_rate` alert.  The code has no minimum-sample gate: processing the very
first 5xx record computes a 100 percent rate, which exceeds 2.0, and the alert is
dispatched at once, so the 49-record run fires one `error_rate` alert, not zero. -/
theorem C1_counterexample :
    countSent AlertType.error_rate
        (processAll sInit (List.replicate 49 (rec5xx, (1000 : ℚ))) okNotif).2 ≠ 0
    ∧ countSent AlertType.error_rate
        (processAll sInit (List.replicate 49 (rec5xx, (1000 : ℚ))) okNotif).2 = 1 := by
  have h49 : List.replicate 49 (rec5xx, (1000 : ℚ))
      = (rec5xx, (1000 : ℚ)) :: List.replicate 48 (rec5xx, (1000 : ℚ)) := rfl
  have htail := processAll_replicate_cooldown 48 okNotif sA1 sA1_cooldown sA1_gat
  have key : countSent AlertType.error_rate
      (processAll sInit (List.replicate 49 (rec5xx, (1000 : ℚ))) okNotif).2 = 1 := by
    rw [h49, processAll_cons_pair, countSent_append, step1_eval]
    dsimp only
    rw [htail]
    simp [countSent_singleton]
  exact ⟨by rw [key]; exact one_ne_zero, key⟩

/-- Claim C1 as amended: the code has no minimum-sample gate, so on a fresh
engine (window 200, threshold 2.0, cooldown 300 s, always-succeeding notifier)
the very first all-5xx record already fires an `error_rate` alert, and feeding
49 and then a 50th such record within the cooldown period yields exactly one
`error_rate` alert in total — fired at the first record, with the window still
updating throughout. -/
theorem C1_theorem :
    countSent AlertType.error_rate
        (processAll sInit [(rec5xx, (1000 : ℚ))] okNotif).2 = 1
    ∧ countSent AlertType.error_rate
        (processAll sInit (List.replicate 50 (rec5xx, (1000 : ℚ))) okNotif).2 = 1 := by
  have htail49 := processAll_replicate_cooldown 49 okNotif sA1 sA1_cooldown sA1_gat
  constructor
  · rw [show ([(rec5xx, (1000 : ℚ))])
        = (rec5xx, (1000 : ℚ)) :: ([] : List (LogRecord × ℚ)) from rfl,
      processAll_cons_pair, countSent_append, step1_eval]
    simp [processAll_nil, countSent_nil, countSent_singleton]
  · have h50 : List.replicate 50 (rec5xx, (1000 : ℚ))
        = (rec5xx, (1000 : ℚ)) :: List.replicate 49 (rec5xx, (1000 : ℚ)) := rfl
    rw [h50, processAll_cons_pair, countSent_append, step1_eval]
    dsimp only
    rw [htail49]
    simp [countSent_singleton]

/-! ### Claim C2 -/

theorem step2_trace : (process_record sA1 rec5xx 1300 okNotif).2
    = [(AlertType.error_rate, SendResult.sent)] := by
  simp only [process_record, detect_failover, monitor_error_rate,
    monitor_service_health, send_slack_alert, should_alert, calculate_error_rate,
    windowErrorRate, count5xx, dequeAppend, lastK, getAlertTime, setAlertTime,
    sInit, sA1, initState, okNotif, rec5xx, List.countP_cons, List.countP_nil,
    sw5_503, ne_503_nil, List.find?]
  norm_num [List.countP_cons, List.countP_nil, sw5_503, ne_503_nil]

/-- Claim C2, counterexample: the claim asserts that once an `error_rate` alert
has fired, no second one fires while the rate stays above the threshold, and that
this is prevented by an ELEVATED/`is_active` state rather than the cooldown.  The
code keeps no such state: two all-5xx records at times 1000 and 1300 (cooldown
300 s) keep the rate at 100 percent throughout, yet both records dispatch an
`error_rate` alert — the second fires as soon as the cooldown allows it. -/
theorem C2_counterexample :
    countSent AlertType.error_rate
      (processAll sInit [(rec5xx, (1000 : ℚ)), (rec5xx, (1300 : ℚ))] okNotif).2 = 2 := by
  rw [show [(rec5xx, (1000 : ℚ)), (rec5xx, (1300 : ℚ))]
      = (rec5xx, (1000 : ℚ)) :: [(rec5xx, (1300 : ℚ))] from rfl,
    processAll_cons_pair, countSent_append, step1_eval]
  dsimp only
  rw [show [(rec5xx, (1300 : ℚ))]
      = (rec5xx, (1300 : ℚ)) :: ([] : List (LogRecord × ℚ)) from rfl,
    processAll_cons_pair, countSent_append, step2_trace]
  simp [processAll_nil, countSent_nil, countSent_singleton]

/-- Claim C2 as amended: after a successful `error_rate` dispatch, re-firing is
prevented only by the cooldown — the code has no ELEVATED/`is_active` latch.
While fewer than `cooldown_sec` seconds have passed since the recorded
`error_rate` dispatch time, processing any record dispatches no `error_rate`
alert (once the cooldown elapses, an alert fires again even though the condition
persisted, as the counterexample shows). -/
theorem C2_theorem (s : WatcherState) (r : LogRecord) (now : ℚ) (f : ℕ → Bool)
    (h : now - getAlertTime s.last_alert_time AlertType.error_rate < s.cooldown_sec) :
    countSent AlertType.error_rate (process_record s r now f).2 = 0 :=
  (process_record_cooldown s r now f h).1

/-- Claim C2 witness: the amended theorem applied to a concrete engine whose
`error_rate` alert fired at time 1000 (cooldown 300 s), processing a 5xx record
at time 1100. -/
theorem C2_witness :
    ((1100 : ℚ) - getAlertTime sCool.last_alert_time AlertType.error_rate
        < sCool.cooldown_sec)
    ∧ countSent AlertType.error_rate
        (process_record sCool rec5xx 1100 okNotif).2 = 0 :=
  ⟨by norm_num [sCool, sInit, initState, getAlertTime_cons],
   C2_theorem sCool rec5xx 1100 okNotif
     (by norm_num [sCool, sInit, initState, getAlertTime_cons])⟩

/-! ### Claim C3 -/

theorem detect_change_trace (s : WatcherState) (pool : String) (now : ℚ)
    (f : ℕ → Bool) (h1 : pool ≠ "") (h2 : pool ≠ s.last_seen_pool) :
    ∃ ev : TraceEvent, (detect_failover s pool now f).2 = [ev]
      ∧ (ev.1 = AlertType.failover ∨ ev.1 = AlertType.recovery) := by
  simp only [detect_failover]
  rw [if_pos (And.intro h1 h2)]
  by_cases hp : pool = s.initial_pool
  · rw [if_pos hp]
    exact ⟨_, rfl, Or.inr (send_event_type _ _ _ _)⟩
  · rw [if_neg hp]
    exact ⟨_, rfl, Or.inl (send_event_type _ _ _ _)⟩

theorem mer_high_trace (s : WatcherState) (r : LogRecord) (now : ℚ)
    (f : ℕ → Bool) (h3 : r.upstream_status ≠ "")
    (h4 : calculate_error_rate
        { s with request_window := dequeAppend s.window_size s.request_window r }
        > s.error_threshold) :
    ∃ ev : TraceEvent, (monitor_error_rate s r now f).2 = [ev]
      ∧ ev.1 = AlertType.error_rate := by
  simp only [monitor_error_rate]
  rw [if_pos h3, if_pos h4]
  exact ⟨_, rfl, send_event_type _ _ _ _⟩

/-- Claim C3, counterexample: the claim asserts the error-rate check runs before
the pool-transition check, so that the `error_rate` alert is attempted first when
both conditions change on one line.  Processing a record with pool green and
upstream status 500 on a fresh engine triggers both conditions, and the trace
shows the `failover` alert dispatched first and the `error_rate` alert second:
`process_log_line` calls `detect_failover` before `monitor_error_rate`. -/
theorem C3_counterexample :
    (process_record sInit (rec5xxPool "green") 1000 okNotif).2
      = [(AlertType.failover, SendResult.sent),
         (AlertType.error_rate, SendResult.sent)] := by
  simp only [process_record, detect_failover, monitor_error_rate,
    monitor_service_health, send_slack_alert, should_alert, calculate_error_rate,
    windowErrorRate, count5xx, dequeAppend, lastK, setAlertTime,
    getAlertTime_nil, getAlertTime_cons, sInit, initState, okNotif, rec5xxPool,
    rec5xx, List.countP_cons, List.countP_nil, sw5_500, ne_500_nil,
    ne_green_nil, ne_green_blue]
  norm_num [List.countP_cons, List.countP_nil, sw5_500, ne_500_nil,
    ne_green_nil, ne_green_blue, getAlertTime_nil, getAlertTime_cons, setAlertTime,
    ne_fo_er, ne_er_fo, ne_fo_re, ne_re_fo, ne_re_er, ne_er_re]

/-- Claim C3 as amended: the pool-transition check runs before the error-rate
check.  On any record whose non-empty pool differs from `last_seen_pool` and
whose window, once the record is appended, has an error rate above the
threshold, the trace of the processed line starts with the pool-transition
attempt (a `failover` or `recovery` alert) followed by the `error_rate`
attempt. -/
theorem C3_theorem (s : WatcherState) (r : LogRecord) (now : ℚ) (f : ℕ → Bool)
    (h1 : r.pool ≠ "") (h2 : r.pool ≠ s.last_seen_pool)
    (h3 : r.upstream_status ≠ "")
    (h4 : windowErrorRate (dequeAppend s.window_size s.request_window r)
        > s.error_threshold) :
    ∃ e1 e2 rest, (process_record s r now f).2 = e1 :: e2 :: rest
      ∧ (e1.1 = AlertType.failover ∨ e1.1 = AlertType.recovery)
      ∧ e2.1 = AlertType.error_rate := by
  obtain ⟨-, -, -, dws, det, drw, -⟩ := detect_pres s r.pool now f
  obtain ⟨ev1, hd, ht1⟩ := detect_change_trace s r.pool now f h1 h2
  have h4' : calculate_error_rate
      { (detect_failover s r.pool now f).1 with
        request_window :=
          dequeAppend ((detect_failover s r.pool now f).1).window_size
            ((detect_failover s r.pool now f).1).request_window r }
      > ((detect_failover s r.pool now f).1).error_threshold := by
    simpa [calculate_error_rate, dws, drw, det] using h4
  obtain ⟨ev2, hm, ht2⟩ :=
    mer_high_trace (detect_failover s r.pool now f).1 r now f h3 h4'
  refine ⟨ev1, ev2,
    (monitor_service_health
      (monitor_error_rate (detect_failover s r.pool now f).1 r now f).1 r now f).2,
    ?_, ht1, ht2⟩
  simp only [process_record, hd, hm]
  simp

/-- Claim C3 witness: the amended theorem applied to the fresh engine and the
record with pool green and upstream status 500 at time 1000. -/
theorem C3_witness :
    ((rec5xxPool "green").pool ≠ "")
    ∧ ((rec5xxPool "green").pool ≠ sInit.last_seen_pool)
    ∧ ((rec5xxPool "green").upstream_status ≠ "")
    ∧ (windowErrorRate
        (dequeAppend sInit.window_size sInit.request_window (rec5xxPool "green"))
        > sInit.error_threshold)
    ∧ (∃ e1 e2 rest,
        (process_record sInit (rec5xxPool "green") 1000 okNotif).2
          = e1 :: e2 :: rest
        ∧ (e1.1 = AlertType.failover ∨ e1.1 = AlertType.recovery)
        ∧ e2.1 = AlertType.error_rate) :=
  ⟨by decide, by decide, by decide,
   by norm_num [windowErrorRate, count5xx, dequeAppend, sInit, initState,
     rec5xxPool, rec5xx, sw5_500, List.countP_cons, List.countP_nil],
   C3_theorem sInit (rec5xxPool "green") 1000 okNotif (by decide) (by decide)
     (by decide)
     (by norm_num [windowErrorRate, count5xx, dequeAppend, sInit, initState,
       rec5xxPool, rec5xx, sw5_500, List.countP_cons, List.countP_nil])⟩

/-! ### Claim C4 -/

/-- Claim C4, counterexample: the claim asserts `last_seen_pool` is updated only
when the pool-transition alert was successfully dispatched.  On an engine in
maintenance mode, a record with pool green is classified as a failover, the
alert is suppressed (never dispatched), and yet `last_seen_pool` becomes green:
the update at the end of `detect_failover` is unconditional. -/
theorem C4_counterexample :
    ((process_record mInit (recOK "green") 1000 okNotif).1).last_seen_pool = "green"
    ∧ (process_record mInit (recOK "green") 1000 okNotif).2
        = [(AlertType.failover, SendResult.suppressedMaintenance)] := by
  have h : process_record mInit (recOK "green") 1000 okNotif
      = ({ mInit with request_window := [recOK "green"]
                      current_pool := "green"
                      last_seen_pool := "green"
                      failover_count := 1 },
         [(AlertType.failover, SendResult.suppressedMaintenance)]) := by
    simp only [process_record, detect_failover, monitor_error_rate,
      monitor_service_health, send_slack_alert, should_alert, calculate_error_rate,
      windowErrorRate, count5xx, dequeAppend, lastK, setAlertTime,
      getAlertTime_nil, getAlertTime_cons, mInit, initState, okNotif, recOK,
      rec5xx, List.countP_cons, List.countP_nil, sw5_200, ne_200_nil,
      ne_green_nil, ne_green_blue]
    norm_num [List.countP_cons, List.countP_nil, sw5_200, ne_200_nil,
      ne_green_nil, ne_green_blue, getAlertTime_nil, getAlertTime_cons,
      setAlertTime, ne_fo_er, ne_er_fo, ne_fo_re, ne_re_fo, ne_re_er, ne_er_re]
  rw [h]
  exact ⟨rfl, rfl⟩

/-- Claim C4 as amended: on every record whose non-empty pool differs from the
stored `last_seen_pool`, the stored pool is updated to the new value
unconditionally — whether the resulting alert was dispatched, suppressed or
failed plays no role. -/
theorem C4_theorem (s : WatcherState) (pool : String) (now : ℚ) (f : ℕ → Bool)
    (h1 : pool ≠ "") (h2 : pool ≠ s.last_seen_pool) :
    ((detect_failover s pool now f).1).last_seen_pool = pool := by
  simp only [detect_failover]
  rw [if_pos (And.intro h1 h2)]
  split_ifs <;> rfl

/-- Claim C4 witness: the amended theorem applied to the maintenance-mode engine
observing pool green, whose alert is suppressed. -/
theorem C4_witness :
    (("green" : String) ≠ "") ∧ (("green" : String) ≠ mInit.last_seen_pool)
    ∧ ((detect_failover mInit "green" 1000 okNotif).1).last_seen_pool = "green" :=
  ⟨by decide, by decide,
   C4_theorem mInit "green" 1000 okNotif (by decide) (by decide)⟩

/-! ### Claim C5 -/

/-- Claim C5: with initial pool blue, processing a record with pool green and
then one with pool blue (healthy 200 upstream statuses, times 1000 and 1001)
dispatches first a `failover` alert and then a `recovery` alert — the green
transition is classified FAILOVER, the return to blue RECOVERY.  Moreover a
record carrying an empty pool value never triggers any pool-transition
classification: `detect_failover` with an empty pool leaves the state untouched
and emits nothing. -/
theorem C5_theorem :
    (processAll sInit
        [(recOK "green", (1000 : ℚ)), (recOK "blue", (1001 : ℚ))] okNotif).2
      = [(AlertType.failover, SendResult.sent), (AlertType.recovery, SendResult.sent)]
    ∧ ∀ (s : WatcherState) (now : ℚ) (f : ℕ → Bool),
        detect_failover s "" now f = (s, []) := by
  constructor
  · simp only [processAll, List.foldl_cons, List.foldl_nil, process_record,
      detect_failover, monitor_error_rate, monitor_service_health, send_slack_alert,
      should_alert, calculate_error_rate, windowErrorRate, count5xx, dequeAppend,
      lastK, setAlertTime, getAlertTime_nil, getAlertTime_cons, sInit, initState,
      okNotif, recOK, rec5xx, List.countP_cons, List.countP_nil, sw5_200,
      ne_200_nil, ne_green_nil, ne_blue_nil, ne_green_blue, ne_blue_green]
    norm_num [List.countP_cons, List.countP_nil, sw5_200, ne_200_nil, ne_green_nil,
      ne_blue_nil, ne_green_blue, ne_blue_green, getAlertTime_nil, getAlertTime_cons,
      setAlertTime, ne_fo_er, ne_er_fo, ne_fo_re, ne_re_fo, ne_re_er, ne_er_re]
  · intro s now f
    simp [detect_failover]

/-! ### Claim C6 -/

theorem dequeAppend_length_le (n : ℕ) (w : List LogRecord) (r : LogRecord) :
    (dequeAppend n w r).length ≤ n := by
  simp [dequeAppend]
  omega

/-- Claim C6: for every sequence of pushes into the sliding window (starting
empty), the window length never exceeds the capacity `n`, and pushing a record
into a full window (length exactly `n`, `n` positive) drops the oldest record —
index 0 — and appends the new one at the end (FIFO eviction, insertion order
preserved). -/
theorem C6_theorem (n : ℕ) (rs : List LogRecord) (w : List LogRecord)
    (r : LogRecord) (hw : w.length = n) (hn : 0 < n) :
    (rs.foldl (fun acc x => dequeAppend n acc x) []).length ≤ n
    ∧ dequeAppend n w r = w.tail ++ [r] := by
  constructor
  · suffices H : ∀ acc : List LogRecord, acc.length ≤ n →
        (rs.foldl (fun acc x => dequeAppend n acc x) acc).length ≤ n from
      H [] (by simp)
    induction rs with
    | nil => intro acc h; simpa using h
    | cons x xs ih =>
        intro acc h
        simpa [List.foldl_cons] using ih _ (dequeAppend_length_le n acc x)
  · cases w with
    | nil => simp at hw; omega
    | cons a w' =>
        have hw' : w'.length + 1 = n := by simpa using hw
        have hidx : w'.length + 1 + 1 - n = 1 := by omega
        simp [dequeAppend, hidx]

/-- Claim C6 witness: capacity 2, a full window of two records, a third record
pushed: the folded window stays within capacity and the full-window push evicts
the head. -/
theorem C6_witness :
    (([recOK "", recOK "blue"] : List LogRecord).length = 2) ∧ (0 < 2)
    ∧ ((([rec5xx, rec5xx, rec5xx] : List LogRecord).foldl
          (fun acc x => dequeAppend 2 acc x) []).length ≤ 2
       ∧ dequeAppend 2 [recOK "", recOK "blue"] rec5xx
           = ([recOK "", recOK "blue"] : List LogRecord).tail ++ [rec5xx]) :=
  ⟨by decide, by decide,
   C6_theorem 2 [rec5xx, rec5xx, rec5xx] [recOK "", recOK "blue"] rec5xx
     (by decide) (by decide)⟩

/-! ### Claim C7 -/

/-- Claim C7: with the recorded dispatch time of category `c` equal to `t`
(which is what a successful dispatch at time `t` stores), any attempt of the
same category at a time `t1` with `t1 - t` below the cooldown is suppressed —
the notifier is not invoked at all — and any attempt at a time `t2` with
`t2 - t` at or past the cooldown, with maintenance mode off and a webhook
configured, reaches the notifier (dispatching successfully or not according to
the notifier). -/
theorem C7_theorem (s : WatcherState) (c : AlertType) (t t1 t2 : ℚ)
    (f : ℕ → Bool) (ht : getAlertTime s.last_alert_time c = t) :
    (t1 - t < s.cooldown_sec →
        (send_slack_alert s c t1 f).2.2 ≠ SendResult.sent
        ∧ (send_slack_alert s c t1 f).2.2 ≠ SendResult.sendFailed)
    ∧ (s.maintenance_mode = false → s.has_webhook = true →
        t2 - t ≥ s.cooldown_sec →
        ((send_slack_alert s c t2 f).2.2 = SendResult.sent
         ∨ (send_slack_alert s c t2 f).2.2 = SendResult.sendFailed)) := by
  constructor
  · intro h1
    have hsa : should_alert s c t1 = false := by
      simp only [should_alert, decide_eq_false_iff_not]
      rw [ht]
      exact fun hc => absurd h1 (not_lt.mpr hc)
    unfold send_slack_alert
    split_ifs <;> simp_all
  · intro hm hw h2
    have hsa : should_alert s c t2 = true := by
      simp only [should_alert, decide_eq_true_eq]
      rw [ht]
      exact h2
    unfold send_slack_alert
    split_ifs <;> simp_all

/-- Claim C7 witness: the theorem applied to the engine whose `error_rate`
alert fired at time 1000 (cooldown 300 s), with attempts at 1100 (suppressed)
and 1300 (reaches the notifier). -/
theorem C7_witness :
    (getAlertTime sCool.last_alert_time AlertType.error_rate = 1000)
    ∧ (((1100 : ℚ) - 1000 < sCool.cooldown_sec →
        (send_slack_alert sCool AlertType.error_rate 1100 okNotif).2.2
            ≠ SendResult.sent
        ∧ (send_slack_alert sCool AlertType.error_rate 1100 okNotif).2.2
            ≠ SendResult.sendFailed)
      ∧ (sCool.maintenance_mode = false → sCool.has_webhook = true →
          (1300 : ℚ) - 1000 ≥ sCool.cooldown_sec →
          ((send_slack_alert sCool AlertType.error_rate 1300 okNotif).2.2
              = SendResult.sent
           ∨ (send_slack_alert sCool AlertType.error_rate 1300 okNotif).2.2
              = SendResult.sendFailed))) :=
  ⟨by simp [sCool, sInit, initState, getAlertTime_cons],
   C7_theorem sCool AlertType.error_rate 1000 1100 1300 okNotif
     (by simp [sCool, sInit, initState, getAlertTime_cons])⟩

/-! ### Claim C8 -/

/-- Claim C8: when the notifier fails the dispatch (non-200 or exception —
`f s.send_count = false`), `last_alert_time` is not updated, the engine state is
otherwise unaffected (only the count of notifier invocations can change), and
the cooldown gate `should_alert` answers afterwards exactly as before for every
category and time — so with an always-failing notifier every eligible condition
keeps re-attempting instead of being cooldown-suppressed. -/
theorem C8_theorem (s : WatcherState) (c : AlertType) (now : ℚ) (f : ℕ → Bool)
    (hf : f s.send_count = false) :
    ((send_slack_alert s c now f).1).last_alert_time = s.last_alert_time
    ∧ (∃ k, (send_slack_alert s c now f).1 = { s with send_count := k })
    ∧ ∀ (c' : AlertType) (now' : ℚ),
        should_alert ((send_slack_alert s c now f).1) c' now'
          = should_alert s c' now' := by
  unfold send_slack_alert
  split_ifs <;>
    first
      | exact ⟨rfl, ⟨s.send_count, rfl⟩, fun c' now' => rfl⟩
      | exact ⟨rfl, ⟨s.send_count + 1, rfl⟩, fun c' now' => rfl⟩
      | simp_all

/-- Claim C8 witness: the theorem applied to a fresh engine with an
always-failing notifier at time 1000. -/
theorem C8_witness :
    (badNotif sInit.send_count = false)
    ∧ (((send_slack_alert sInit AlertType.error_rate 1000 badNotif).1).last_alert_time
          = sInit.last_alert_time
      ∧ (∃ k, (send_slack_alert sInit AlertType.error_rate 1000 badNotif).1
            = { sInit with send_count := k })
      ∧ ∀ (c' : AlertType) (now' : ℚ),
          should_alert ((send_slack_alert sInit AlertType.error_rate 1000 badNotif).1)
              c' now'
            = should_alert sInit c' now') :=
  ⟨rfl, C8_theorem sInit AlertType.error_rate 1000 badNotif rfl⟩

/-! ### Claim C9 -/

theorem startswith5_ne_empty (u : String) (h : startswith5 u = true) : u ≠ "" := by
  intro hc
  subst hc
  exact absurd h (by decide)

theorem spec_pred_eq (x : LogRecord) :
    (decide (x.upstream_status ≠ "") && startswith5 x.upstream_status)
      = startswith5 x.upstream_status := by
  by_cases h5 : startswith5 x.upstream_status = true
  · simp [h5, startswith5_ne_empty _ h5]
  · have h5' : startswith5 x.upstream_status = false := by simpa using h5
    simp [h5']

/-- Claim C9: the error-rate computation agrees with the specification's
formula — `0.0` on the empty window, otherwise the count of records whose
`upstream_status` is present and starts with digit 5, divided by the window
size, times 100 — and the division is only ever performed with a positive
denominator, so no division by zero occurs. -/
theorem C9_theorem (s : WatcherState) :
    calculate_error_rate s = errorRateSpec s.request_window
    ∧ (s.request_window = [] → calculate_error_rate s = 0)
    ∧ (s.request_window ≠ [] → 0 < (s.request_window.length : ℚ)) := by
  refine ⟨?_, ?_, ?_⟩
  · by_cases hw : s.request_window = []
    · simp [calculate_error_rate, windowErrorRate, errorRateSpec, hw]
    · have hlen : s.request_window.length ≠ 0 := by
        simpa [List.length_eq_zero] using hw
      have hemp : ¬(s.request_window.isEmpty = true) := by
        simpa [List.isEmpty_iff] using hw
      have hcount : List.countP (fun r => decide (r.upstream_status ≠ "")
          && startswith5 r.upstream_status) s.request_window
            = count5xx s.request_window := by
        unfold count5xx
        refine List.countP_congr (fun x _ => ?_)
        rw [spec_pred_eq]
      simp only [calculate_error_rate, windowErrorRate, errorRateSpec]
      rw [if_neg hemp, if_neg hlen, hcount]
  · intro h
    simp [calculate_error_rate, windowErrorRate, h]
  · intro h
    exact_mod_cast List.length_pos.mpr h

/-- Claim C9 witness: the theorem applied to the fresh engine (empty window, so
the rate is exactly 0) and to a one-record window (positive denominator). -/
theorem C9_witness :
    (calculate_error_rate sInit = 0)
    ∧ (sA1.request_window ≠ [] → 0 < (sA1.request_window.length : ℚ)) :=
  ⟨(C9_theorem sInit).2.1 rfl, (C9_theorem sA1).2.2⟩

/-! ### Claim C10 -/

/-- Claim C10: the health monitor attempts its `recovery` alert only when every
one of the following holds — the record has a (truthy) non-5xx
`upstream_status`, the window holds at least 10 records, the last 10 records
contain no 5xx, an `error_rate` dispatch time is recorded (positive, which is
what a successful dispatch stores), and less than 600 seconds have passed since
that dispatch. -/
theorem C10_theorem (s : WatcherState) (r : LogRecord) (now : ℚ) (f : ℕ → Bool)
    (h : (monitor_service_health s r now f).2 ≠ []) :
    r.upstream_status ≠ "" ∧ startswith5 r.upstream_status = false
    ∧ 10 ≤ s.request_window.length
    ∧ count5xx (lastK 10 s.request_window) = 0
    ∧ 0 < getAlertTime s.last_alert_time AlertType.error_rate
    ∧ now - getAlertTime s.last_alert_time AlertType.error_rate < 600 := by
  simp only [monitor_service_health] at h
  split_ifs at h with c1 c2 c3 c4
  · exact ⟨c1.1, c1.2, c2, c3.1, c3.2, c4⟩
  all_goals simp at h

/-- Claim C10 witness: the theorem applied to an engine with a ten-record
healthy window and an `error_rate` dispatch recorded at time 500, processing a
healthy record at time 600 — the recovery alert is attempted there, and all six
conditions hold. -/
theorem C10_witness :
    ((monitor_service_health sHealth (recOK "") 600 okNotif).2 ≠ [])
    ∧ ((recOK "").upstream_status ≠ ""
      ∧ startswith5 (recOK "").upstream_status = false
      ∧ 10 ≤ sHealth.request_window.length
      ∧ count5xx (lastK 10 sHealth.request_window) = 0
      ∧ 0 < getAlertTime sHealth.last_alert_time AlertType.error_rate
      ∧ (600 : ℚ) - getAlertTime sHealth.last_alert_time AlertType.error_rate
          < 600) := by
  have hg : getAlertTime sHealth.last_alert_time AlertType.error_rate = 500 := by
    simp [sHealth, sInit, initState, getAlertTime_cons]
  have hne : (monitor_service_health sHealth (recOK "") 600 okNotif).2 ≠ [] := by
    have c1 : (recOK "").upstream_status ≠ ""
        ∧ startswith5 (recOK "").upstream_status = false := ⟨by decide, by decide⟩
    have c2 : 10 ≤ sHealth.request_window.length := by decide
    have c3 : count5xx (lastK 10 sHealth.request_window) = 0
        ∧ 0 < getAlertTime sHealth.last_alert_time AlertType.error_rate :=
      ⟨by decide, by rw [hg]; norm_num⟩
    have c4 : (600 : ℚ) - getAlertTime sHealth.last_alert_time AlertType.error_rate
        < 600 := by rw [hg]; norm_num
    simp only [monitor_service_health]
    rw [if_pos c1, if_pos c2, if_pos c3, if_pos c4]
    simp
  exact ⟨hne, C10_theorem sHealth (recOK "") 600 okNotif hne⟩
